import Mathlib

/-
Shallow embedding of the ovh-dyndns-client update-orchestration core:
the OVH response parser and HTTP wrapper (infrastructure/clients/ovh_client.py),
the SQLite-backed state/hosts repository (infrastructure/database/repository.py),
and the update controller (application/controller.py).

Machine state (hosts table, singleton IP state row, history table) is passed
explicitly; calls through the ports (IP provider, DNS updater) are modelled by
an environment of `Except`-valued results, where `Except.error msg` stands for
a raised Python exception whose `str()` is `msg`.  Each controller operation
also returns a trace of the port calls it performed, so that claims about
"how many times the DNS updater was called and with which arguments" are
directly statable.
-/

namespace DynDns

/-- IP addresses are abstracted as their canonical textual value; the code
compares `IPvAnyAddress` values by value equality, which equality of the
canonical strings models. -/
abbrev Ip := String

/-- domain/hostconfig.py: `HostConfig(hostname, username, password)`. -/
structure HostConfig where
  hostname : String
  username : String
  password : String
deriving DecidableEq

namespace OvhClient

/-- ovh_client.py: the `RESPONSE_MESSAGES` table of OVH DynHost response
codes, verbatim. -/
def RESPONSE_MESSAGES : List (String × String) :=
  [ ("good", "IP updated successfully"),
    ("nochg", "IP unchanged (already set)"),
    ("nohost", "Hostname not found - check DynHost configuration in OVH"),
    ("badauth", "Authentication failed - check username/password"),
    ("notfqdn", "Invalid hostname format"),
    ("abuse", "Too many requests - try again later"),
    ("911", "OVH service error - try again later"),
    ("badagent", "Invalid request") ]

/-- Python `str.strip()` (for the ASCII whitespace the protocol uses): drop
leading and trailing whitespace characters. -/
def pyStrip (s : String) : String :=
  (((s.toList.dropWhile Char.isWhitespace).reverse.dropWhile
      Char.isWhitespace).reverse).asString

/-- Python `str.lower()` (ASCII range, which covers the protocol codes):
lower-case every character. -/
def pyLower (s : String) : String :=
  (s.toList.map Char.toLower).asString

/-- Character-list core of Python `str.startswith`. -/
def startsWithL : List Char → List Char → Bool
  | _, [] => true
  | [], _ :: _ => false
  | c :: cs, p :: ps => (c == p) && startsWithL cs ps

/-- Python `s.startswith(pre)`. -/
def pyStartsWith (s pre : String) : Bool :=
  startsWithL s.toList pre.toList

/-- Accumulating core of Python `str.split()` with no arguments: cut at
whitespace runs, discarding empty pieces. -/
def splitAuxWs : List Char → List Char → List (List Char)
  | [], acc => if acc.isEmpty then [] else [acc.reverse]
  | c :: rest, acc =>
      if c.isWhitespace then
        if acc.isEmpty then splitAuxWs rest []
        else acc.reverse :: splitAuxWs rest []
      else splitAuxWs rest (c :: acc)

/-- Python `str.split()` with no arguments. -/
def pySplit (s : String) : List String :=
  (splitAuxWs s.toList []).map List.asString

/-- Python truthiness of a string: nonempty. -/
def pyIsEmpty (s : String) : Bool :=
  s.toList.isEmpty

/-- ovh_client.py: `error_code = response_text.split()[0] if response_text
else "unknown"`.  On the (stripped) nonempty strings this is applied to,
`split()` is nonempty, so `headD` with a default models the `[0]` index. -/
def error_code_of (t : String) : String :=
  if pyIsEmpty t then "unknown" else (pySplit t).headD ""

/-- ovh_client.py `OvhClient._parse_response`: strip and lower-case the body;
bodies starting with `good` or `nochg` are successes; otherwise the first
whitespace-delimited word is looked up in `RESPONSE_MESSAGES`, defaulting to
an unknown-error message carrying the normalized body. -/
def parse_response (response_text : String) : Bool × Option String :=
  let t := pyLower (pyStrip response_text)
  if pyStartsWith t "good" || pyStartsWith t "nochg" then
    (true, none)
  else
    let error_code := error_code_of t
    let error_message :=
      (RESPONSE_MESSAGES.lookup error_code).getD ("Unknown error: " ++ t)
    (false, some error_message)

/-- An HTTP response as seen through `requests`: status code, reason phrase
and body text. -/
structure HttpResponse where
  status_code : Nat
  reason : String
  text : String
deriving DecidableEq

/-- `requests.Response.ok` is defined by the requests library as: the status
code is less than 400 (no HTTPError would be raised). -/
def HttpResponse.ok (r : HttpResponse) : Bool :=
  r.status_code < 400

/-- Outcome of the `requests.get` call inside `update_ip`: either a raised
`requests.RequestException` (with its `str()`), or a response. -/
inductive HttpResult where
  | exc (msg : String)
  | resp (r : HttpResponse)
deriving DecidableEq

/-- ovh_client.py `OvhClient.update_ip`, as a function of the transport
outcome: a raised `RequestException` is converted to a connection-error
result, a not-ok response to an HTTP-error result, and otherwise the body is
parsed. -/
def update_ip (result : HttpResult) : Bool × Option String :=
  match result with
  | .exc msg => (false, some ("Connection error: " ++ msg))
  | .resp r =>
      if ¬ r.ok then
        (false, some ("HTTP " ++ toString r.status_code ++ ": " ++ r.reason))
      else
        parse_response r.text

end OvhClient

/-- database/models.py `Host` row, rendered with the fields the core touches:
the configuration plus the mutable status columns (`last_update`,
`last_status`, `last_error`).  `last_status = none` is the never-run state. -/
structure HostRecord where
  config : HostConfig
  last_update : Option Nat
  last_status : Option Bool
  last_error : Option String
deriving DecidableEq

/-- database/models.py `History` row (the columns the repository writes). -/
structure HistoryEvent where
  ip : Option Ip
  action : String
  hostname : Option String
  details : Option String
deriving DecidableEq

/-- The persistent state behind `SqliteRepository`: the hosts table, the
singleton `State` row (current IP and last-check timestamp) and the
append-only history table.  Wall-clock time is modelled by a `Nat` supplied
per cycle. -/
structure DbState where
  hosts : List HostRecord
  current_ip : Option Ip
  last_check : Option Nat
  history : List HistoryEvent
deriving DecidableEq

/-- Python `x if x else d` on an optional string: `None` and the empty string
are falsy. -/
def pyOr (o : Option String) (d : String) : String :=
  match o with
  | none => d
  | some s => if s.isEmpty then d else s

/-- Rendering of an optional IP inside a formatted message (Python prints
`None` for an absent value). -/
def showOptIp (o : Option Ip) : String :=
  match o with
  | none => "None"
  | some s => s

/-- repository.py `SqliteRepository.get_ip`. -/
def get_ip (db : DbState) : Option Ip :=
  db.current_ip

/-- repository.py `SqliteRepository.set_ip`: store the IP, refresh the
last-check timestamp, and append an `ip_changed` history row when the stored
value actually changed. -/
def set_ip (db : DbState) (now : Nat) (ip : Ip) : DbState :=
  let old_ip := db.current_ip
  let db1 : DbState := { db with current_ip := some ip, last_check := some now }
  if old_ip ≠ some ip then
    { db1 with history := db1.history ++
        [{ ip := some ip, action := "ip_changed", hostname := none,
           details := some ("IP changed from " ++ showOptIp old_ip ++ " to " ++ ip) }] }
  else
    db1

/-- repository.py `SqliteRepository.get_hosts`: every host row as a
`HostConfig`. -/
def get_hosts (db : DbState) : List HostConfig :=
  db.hosts.map (fun h => h.config)

/-- Mutation of the first host row matching the hostname (the `.first()`
query in `update_host_status`). -/
def setStatusFirst (hosts : List HostRecord) (hostname : String) (now : Nat)
    (success : Bool) (error : Option String) : List HostRecord :=
  match hosts with
  | [] => []
  | h :: rest =>
      if h.config.hostname = hostname then
        { h with last_update := some now, last_status := some success,
                 last_error := error } :: rest
      else
        h :: setStatusFirst rest hostname now success error

/-- repository.py `SqliteRepository.update_host_status`: when a row with the
hostname exists, set its status columns and append a history row (action
`host_updated` or `host_failed`, details the error when truthy, else a fixed
success message); when no row matches, do nothing. -/
def update_host_status (db : DbState) (now : Nat) (hostname : String)
    (success : Bool) (error : Option String) : DbState :=
  if db.hosts.any (fun h => h.config.hostname = hostname) then
    { db with
      hosts := setStatusFirst db.hosts hostname now success error,
      history := db.history ++
        [{ ip := none,
           action := if success then "host_updated" else "host_failed",
           hostname := some hostname,
           details := some (pyOr error "DNS update successful") }] }
  else
    db

/-- Modelled from the spec: `update_last_check()` of the IP State Store port
(`SqliteRepository` under src/ does not implement it) — "Record
`update_last_check()` unconditionally once discovery succeeds"; it refreshes
the last-check timestamp independently of IP changes. -/
def update_last_check (db : DbState) (now : Nat) : DbState :=
  { db with last_check := some now }

/-- Pending predicate on a host row: last status is failure or never-run. -/
def isPending (h : HostRecord) : Bool :=
  match h.last_status with
  | some true => false
  | _ => true

/-- Selection of the pending rows, row by row. -/
def pendingOf (hosts : List HostRecord) : List HostConfig :=
  match hosts with
  | [] => []
  | h :: rest =>
      match h.last_status with
      | some true => pendingOf rest
      | _ => h.config :: pendingOf rest

/-- Modelled from the spec: `get_pending_hosts()` of the Hosts Repository
port (`SqliteRepository` under src/ does not implement it) — "hosts with
failure or never-attempted status; used for retry without re-pushing to
hosts already in good state". -/
def get_pending_hosts (db : DbState) : List HostConfig :=
  pendingOf db.hosts

/-- Modelled from the spec: `get_host_by_hostname(name)` of the Hosts
Repository port (`SqliteRepository` under src/ does not implement it) —
"point lookup for forced single-host updates". -/
def get_host_by_hostname (db : DbState) (hostname : String) : Option HostConfig :=
  (db.hosts.find? (fun h => h.config.hostname = hostname)).map (fun h => h.config)

/-- The two outward ports the controller calls: IP discovery
(`IpProvider.get_public_ip`) and the DNS updater (`DnsUpdater.update_ip`).
`Except.error msg` models a raised exception with `str()` equal to `msg`. -/
structure Ports where
  get_public_ip : Except String Ip
  update_ip : HostConfig → Ip → Except String (Bool × Option String)

/-- Trace of observable port calls made during a controller operation. -/
inductive Event where
  | discover (ip : Ip)
  | lastCheck
  | setIpCall (ip : Ip)
  | dnsUpdate (hostname : String) (ip : Ip)
  | statusWrite (hostname : String) (success : Bool) (error : Option String)
deriving DecidableEq

/-- The DNS-update calls recorded in a trace, with their IP argument. -/
def dnsCalls (evs : List Event) : List (String × Ip) :=
  evs.filterMap (fun e =>
    match e with
    | .dnsUpdate h i => some (h, i)
    | _ => none)

/-- The `set_ip` calls recorded in a trace. -/
def setIpCalls (evs : List Event) : List Ip :=
  evs.filterMap (fun e =>
    match e with
    | .setIpCall i => some i
    | _ => none)

/-- The `update_host_status` calls recorded in a trace. -/
def statusWrites (evs : List Event) : List (String × Bool × Option String) :=
  evs.filterMap (fun e =>
    match e with
    | .statusWrite h s er => some (h, s, er)
    | _ => none)

/-- Number of `update_last_check` calls recorded in a trace. -/
def lastCheckCount (evs : List Event) : Nat :=
  (evs.filter (fun e =>
    match e with
    | .lastCheck => true
    | _ => false)).length

/-- The `(success, error)` pair a single `dns_updater.update_ip` call
contributes after the per-host `try/except` in `update_hosts_ip`: a normal
return is taken as is, a raised exception becomes `(False, str(e))`. -/
def updateOutcome (env : Ports) (host : HostConfig) (ip : Ip) : Bool × Option String :=
  match env.update_ip host ip with
  | .ok r => r
  | .error e => (false, some e)

/-- controller.py `UpdateDnsController.update_hosts_ip`: for each host, call
the DNS updater and persist the outcome via `update_host_status`; a raised
updater exception is caught and persisted as `(False, str(e))`, and the
remaining hosts are still processed. -/
def update_hosts_ip (env : Ports) (now : Nat) (db : DbState)
    (hosts : List HostConfig) (ip : Ip) : DbState × List Event :=
  match hosts with
  | [] => (db, [])
  | host :: rest =>
      let step : DbState × List Event :=
        match env.update_ip host ip with
        | .ok (success, error_message) =>
            (update_host_status db now host.hostname success error_message,
             [.dnsUpdate host.hostname ip,
              .statusWrite host.hostname success error_message])
        | .error e =>
            (update_host_status db now host.hostname false (some e),
             [.dnsUpdate host.hostname ip,
              .statusWrite host.hostname false (some e)])
      let next := update_hosts_ip env now step.1 rest ip
      (next.1, step.2 ++ next.2)

/-- Outcome of one `handler()` cycle: the state after the cycle, the trace of
port calls, and the raised `RuntimeError` message when the cycle failed. -/
structure CycleResult where
  db : DbState
  trace : List Event
  err : Option String
deriving DecidableEq

/-- controller.py `UpdateDnsController.handler`: discover the public IP
(failure aborts the cycle with `RuntimeError("DynDNS update failed")` before
any mutation), record the last check, then either retry only the pending
hosts (IP unchanged) or persist the new IP and reconcile the full host set
(IP changed). -/
def handler (env : Ports) (now : Nat) (db : DbState) : CycleResult :=
  match env.get_public_ip with
  | .error _e => { db := db, trace := [], err := some "DynDNS update failed" }
  | .ok ip =>
      let db1 := update_last_check db now
      if some ip = get_ip db1 then
        let pending := get_pending_hosts db1
        if pending.isEmpty then
          { db := db1, trace := [.discover ip, .lastCheck], err := none }
        else
          let res := update_hosts_ip env now db1 pending ip
          { db := res.1, trace := [.discover ip, .lastCheck] ++ res.2, err := none }
      else
        let db2 := set_ip db1 now ip
        let res := update_hosts_ip env now db2 (get_hosts db2) ip
        { db := res.1,
          trace := [.discover ip, .lastCheck, .setIpCall ip] ++ res.2,
          err := none }

/-- The tail of `force_update_host` once an IP is in hand, still inside its
`try`: record the last check, attempt the single update, persist the outcome
and build the returned pair; a raised updater exception is caught, persisted
as `(False, str(e))` and returned as `(False, str(e))`. -/
def force_attempt (env : Ports) (now : Nat) (db : DbState) (host : HostConfig)
    (hostname : String) (ip : Ip) (evs0 : List Event) :
    DbState × List Event × Bool × String :=
  let db1 := update_last_check db now
  match env.update_ip host ip with
  | .error e =>
      (update_host_status db1 now hostname false (some e),
       evs0 ++ [.lastCheck, .dnsUpdate host.hostname ip,
                .statusWrite hostname false (some e)],
       false, e)
  | .ok (success, error_message) =>
      let db2 := update_host_status db1 now hostname success error_message
      let tr := evs0 ++ [.lastCheck, .dnsUpdate host.hostname ip,
                         .statusWrite hostname success error_message]
      if success then
        (db2, tr, true, "Host " ++ hostname ++ " updated successfully")
      else
        (db2, tr, false, pyOr error_message "Unknown error")

/-- controller.py `UpdateDnsController.force_update_host`: missing host is an
immediate failure result with no side effect; otherwise, when the stored IP
is unset, discover and persist a fresh one first (a discovery exception is
caught, persisted against the host and returned), then run the single-host
attempt. -/
def force_update_host (env : Ports) (now : Nat) (db : DbState)
    (hostname : String) : DbState × List Event × Bool × String :=
  match get_host_by_hostname db hostname with
  | none => (db, [], false, "Host " ++ hostname ++ " not found")
  | some host =>
      match get_ip db with
      | some ip => force_attempt env now db host hostname ip []
      | none =>
          match env.get_public_ip with
          | .error e =>
              (update_host_status db now hostname false (some e),
               [.statusWrite hostname false (some e)], false, e)
          | .ok ip =>
              let db1 := set_ip db now ip
              force_attempt env now db1 host hostname ip
                [.discover ip, .setIpCall ip]

end DynDns

namespace DynDns

/-! Sample fixtures used by the witness theorems. -/

/-- A configured host whose last attempt succeeded. -/
def hostA : HostConfig :=
  { hostname := "a.example.com", username := "ua", password := "pa" }

/-- A configured host whose last attempt failed. -/
def hostB : HostConfig :=
  { hostname := "b.example.com", username := "ub", password := "pb" }

/-- Row for `hostA`: last status success. -/
def recA : HostRecord :=
  { config := hostA, last_update := some 1, last_status := some true,
    last_error := none }

/-- Row for `hostB`: last status failure. -/
def recB : HostRecord :=
  { config := hostB, last_update := some 1, last_status := some false,
    last_error := some "X" }

/-- Sample database: two hosts, stored IP 1.1.1.1. -/
def dbS : DbState :=
  { hosts := [recA, recB], current_ip := some "1.1.1.1", last_check := some 0,
    history := [] }

/-- Sample database with no stored IP and only the failed host. -/
def dbNoIp : DbState :=
  { hosts := [recB], current_ip := none, last_check := none, history := [] }

/-- Environment: discovery returns 2.2.2.2, every update succeeds. -/
def envOk : Ports :=
  { get_public_ip := .ok "2.2.2.2", update_ip := fun _ _ => .ok (true, none) }

/-- Environment: discovery returns the stored IP 1.1.1.1. -/
def envSame : Ports :=
  { get_public_ip := .ok "1.1.1.1", update_ip := fun _ _ => .ok (true, none) }

/-- Environment: discovery raises. -/
def envFail : Ports :=
  { get_public_ip := .error "Unable to fetch IP from ipify",
    update_ip := fun _ _ => .ok (true, none) }

/-- Environment: discovery returns 2.2.2.2, every update raises. -/
def envRaise : Ports :=
  { get_public_ip := .ok "2.2.2.2", update_ip := fun _ _ => .error "boom" }

/-! Helper lemmas about the repository operations. -/

theorem update_host_status_current_ip (db : DbState) (now : Nat) (hostname : String)
    (success : Bool) (error : Option String) :
    (update_host_status db now hostname success error).current_ip = db.current_ip := by
  simp only [update_host_status]
  split <;> rfl

theorem update_host_status_last_check (db : DbState) (now : Nat) (hostname : String)
    (success : Bool) (error : Option String) :
    (update_host_status db now hostname success error).last_check = db.last_check := by
  simp only [update_host_status]
  split <;> rfl

theorem set_ip_current_ip (db : DbState) (now : Nat) (ip : Ip) :
    (set_ip db now ip).current_ip = some ip := by
  simp only [set_ip]
  split <;> rfl

theorem set_ip_last_check (db : DbState) (now : Nat) (ip : Ip) :
    (set_ip db now ip).last_check = some now := by
  simp only [set_ip]
  split <;> rfl

theorem get_hosts_set_ip (db : DbState) (now : Nat) (ip : Ip) :
    get_hosts (set_ip db now ip) = get_hosts db := by
  simp only [set_ip, get_hosts]
  split <;> rfl

/-! Helper lemmas about `update_hosts_ip`. -/

theorem update_hosts_ip_trace (env : Ports) (now : Nat) (ip : Ip) :
    ∀ (hosts : List HostConfig) (db : DbState),
    (update_hosts_ip env now db hosts ip).2 =
      hosts.flatMap (fun h =>
        [Event.dnsUpdate h.hostname ip,
         Event.statusWrite h.hostname (updateOutcome env h ip).1
           (updateOutcome env h ip).2]) := by
  intro hosts
  induction hosts with
  | nil => intro db; rfl
  | cons h rest ih =>
      intro db
      simp only [update_hosts_ip]
      cases hu : env.update_ip h ip with
      | ok r =>
          obtain ⟨s, e⟩ := r
          simp [updateOutcome, hu, ih, List.flatMap_cons]
      | error e =>
          simp [updateOutcome, hu, ih, List.flatMap_cons]

theorem update_hosts_ip_db (env : Ports) (now : Nat) (ip : Ip) :
    ∀ (hosts : List HostConfig) (db : DbState),
    (update_hosts_ip env now db hosts ip).1 =
      hosts.foldl (fun d h =>
        update_host_status d now h.hostname (updateOutcome env h ip).1
          (updateOutcome env h ip).2) db := by
  intro hosts
  induction hosts with
  | nil => intro db; rfl
  | cons h rest ih =>
      intro db
      simp only [update_hosts_ip]
      cases hu : env.update_ip h ip with
      | ok r =>
          obtain ⟨s, e⟩ := r
          simp [updateOutcome, hu, ih]
      | error e =>
          simp [updateOutcome, hu, ih]

theorem dnsCalls_update_hosts_ip (env : Ports) (now : Nat) (ip : Ip)
    (hosts : List HostConfig) (db : DbState) :
    dnsCalls (update_hosts_ip env now db hosts ip).2 =
      hosts.map (fun h => (h.hostname, ip)) := by
  rw [update_hosts_ip_trace]
  induction hosts with
  | nil => rfl
  | cons h rest ih =>
      simp [List.flatMap_cons, dnsCalls, List.filterMap_append] at ih ⊢
      exact ih

theorem statusWrites_update_hosts_ip (env : Ports) (now : Nat) (ip : Ip)
    (hosts : List HostConfig) (db : DbState) :
    statusWrites (update_hosts_ip env now db hosts ip).2 =
      hosts.map (fun h => (h.hostname, updateOutcome env h ip)) := by
  rw [update_hosts_ip_trace]
  induction hosts with
  | nil => rfl
  | cons h rest ih =>
      simp [List.flatMap_cons, statusWrites, List.filterMap_append] at ih ⊢
      exact ih

theorem setIpCalls_update_hosts_ip (env : Ports) (now : Nat) (ip : Ip)
    (hosts : List HostConfig) (db : DbState) :
    setIpCalls (update_hosts_ip env now db hosts ip).2 = [] := by
  rw [update_hosts_ip_trace]
  induction hosts with
  | nil => rfl
  | cons h rest ih =>
      simp [List.flatMap_cons, setIpCalls, List.filterMap_append] at ih ⊢
      exact ih

theorem lastCheckCount_update_hosts_ip (env : Ports) (now : Nat) (ip : Ip)
    (hosts : List HostConfig) (db : DbState) :
    lastCheckCount (update_hosts_ip env now db hosts ip).2 = 0 := by
  rw [update_hosts_ip_trace]
  induction hosts with
  | nil => rfl
  | cons h rest ih =>
      simp [List.flatMap_cons, lastCheckCount, List.filter_append] at ih ⊢
      exact ih

theorem update_hosts_ip_current_ip (env : Ports) (now : Nat) (ip : Ip) :
    ∀ (hosts : List HostConfig) (db : DbState),
    (update_hosts_ip env now db hosts ip).1.current_ip = db.current_ip := by
  intro hosts
  induction hosts with
  | nil => intro db; rfl
  | cons h rest ih =>
      intro db
      simp only [update_hosts_ip]
      cases hu : env.update_ip h ip with
      | ok r =>
          obtain ⟨s, e⟩ := r
          simp [hu, ih, update_host_status_current_ip]
      | error e =>
          simp [hu, ih, update_host_status_current_ip]

theorem update_hosts_ip_last_check (env : Ports) (now : Nat) (ip : Ip) :
    ∀ (hosts : List HostConfig) (db : DbState),
    (update_hosts_ip env now db hosts ip).1.last_check = db.last_check := by
  intro hosts
  induction hosts with
  | nil => intro db; rfl
  | cons h rest ih =>
      intro db
      simp only [update_hosts_ip]
      cases hu : env.update_ip h ip with
      | ok r =>
          obtain ⟨s, e⟩ := r
          simp [hu, ih, update_host_status_last_check]
      | error e =>
          simp [hu, ih, update_host_status_last_check]

end DynDns

namespace DynDns

/-- C1: in a cycle where the discovered public IP differs from the stored IP,
`handler` first persists the new IP via `set_ip` (the `setIpCall` precedes
every DNS call in the trace) and then attempts exactly one DNS update per
configured host returned by `get_hosts`, each carrying the new IP, with no
further `set_ip`; the cycle ends with the new IP stored and no error. -/
theorem handler_ip_changed_full_reconciliation
    (env : Ports) (now : Nat) (db : DbState) (ip : Ip)
    (hdisc : env.get_public_ip = .ok ip) (hne : db.current_ip ≠ some ip) :
    ∃ tail,
      (handler env now db).trace =
        Event.discover ip :: Event.lastCheck :: Event.setIpCall ip :: tail ∧
      dnsCalls tail = (get_hosts db).map (fun h => (h.hostname, ip)) ∧
      setIpCalls tail = [] ∧
      (handler env now db).db.current_ip = some ip ∧
      (handler env now db).err = none := by
  have hcond : ¬ (some ip = get_ip (update_last_check db now)) := by
    simp only [get_ip, update_last_check]
    exact fun h => hne h.symm
  have hh : handler env now db =
      { db := (update_hosts_ip env now (set_ip (update_last_check db now) now ip)
                (get_hosts (set_ip (update_last_check db now) now ip)) ip).1,
        trace := [Event.discover ip, Event.lastCheck, Event.setIpCall ip] ++
          (update_hosts_ip env now (set_ip (update_last_check db now) now ip)
            (get_hosts (set_ip (update_last_check db now) now ip)) ip).2,
        err := none } := by
    simp only [handler, hdisc]
    rw [if_neg hcond]
  refine ⟨(update_hosts_ip env now (set_ip (update_last_check db now) now ip)
      (get_hosts (set_ip (update_last_check db now) now ip)) ip).2, ?_, ?_, ?_, ?_, ?_⟩
  · rw [hh]
    rfl
  · rw [dnsCalls_update_hosts_ip, get_hosts_set_ip]
    rfl
  · rw [setIpCalls_update_hosts_ip]
  · rw [hh]
    simp only
    rw [update_hosts_ip_current_ip, set_ip_current_ip]
  · rw [hh]

/-- C2: in a cycle where the discovered public IP equals the stored IP,
`handler` attempts DNS updates exactly for the hosts returned by
`get_pending_hosts` (one attempt per pending entry, none for other hosts
and zero attempts when the pending set is empty), never calls `set_ip`,
leaves the stored IP unchanged and raises no error. -/
theorem handler_ip_unchanged_pending_only
    (env : Ports) (now : Nat) (db : DbState) (ip : Ip)
    (hdisc : env.get_public_ip = .ok ip) (heq : db.current_ip = some ip) :
    dnsCalls (handler env now db).trace =
      (get_pending_hosts db).map (fun h => (h.hostname, ip)) ∧
    setIpCalls (handler env now db).trace = [] ∧
    (handler env now db).db.current_ip = db.current_ip ∧
    (handler env now db).err = none := by
  have hcond : some ip = get_ip (update_last_check db now) := by
    simp only [get_ip, update_last_check]
    exact heq.symm
  by_cases hp : (get_pending_hosts (update_last_check db now)).isEmpty
  · have hh : handler env now db =
        { db := update_last_check db now,
          trace := [Event.discover ip, Event.lastCheck], err := none } := by
      simp only [handler, hdisc]
      rw [if_pos hcond, if_pos hp]
    have hpe : get_pending_hosts db = [] := by
      have := hp
      simpa [get_pending_hosts, update_last_check, List.isEmpty_iff] using this
    rw [hh, hpe]
    refine ⟨rfl, rfl, rfl, rfl⟩
  · have hh : handler env now db =
        { db := (update_hosts_ip env now (update_last_check db now)
                  (get_pending_hosts (update_last_check db now)) ip).1,
          trace := [Event.discover ip, Event.lastCheck] ++
            (update_hosts_ip env now (update_last_check db now)
              (get_pending_hosts (update_last_check db now)) ip).2,
          err := none } := by
      simp only [handler, hdisc]
      rw [if_pos hcond, if_neg hp]
    refine ⟨?_, ?_, ?_, ?_⟩
    · rw [hh]
      show dnsCalls (Event.discover ip :: Event.lastCheck ::
        (update_hosts_ip env now (update_last_check db now)
          (get_pending_hosts (update_last_check db now)) ip).2) = _
      simp only [dnsCalls, List.filterMap_cons]
      rw [← dnsCalls, dnsCalls_update_hosts_ip]
      rfl
    · rw [hh]
      show setIpCalls (Event.discover ip :: Event.lastCheck ::
        (update_hosts_ip env now (update_last_check db now)
          (get_pending_hosts (update_last_check db now)) ip).2) = _
      simp only [setIpCalls, List.filterMap_cons]
      rw [← setIpCalls, setIpCalls_update_hosts_ip]
    · rw [hh]
      simp only
      rw [update_hosts_ip_current_ip]
      rfl
    · rw [hh]

/-- C5: when IP discovery raises, `handler` raises the cycle-level
`RuntimeError` and performs no mutation at all: the state is returned
unchanged and the trace is empty, so `update_host_status` is never called
and the stored IP is not written. -/
theorem handler_discovery_failure_aborts
    (env : Ports) (now : Nat) (db : DbState) (e : String)
    (hfail : env.get_public_ip = .error e) :
    handler env now db =
      { db := db, trace := [], err := some "DynDNS update failed" } := by
  simp only [handler, hfail]

/-- C8: once discovery succeeds, every `handler` cycle records the
last-check timestamp exactly once (and the resulting state carries it),
while `set_ip` is called exactly when the discovered IP differs from the
stored one; an unchanged-IP cycle never modifies the stored IP. -/
theorem handler_state_invariants
    (env : Ports) (now : Nat) (db : DbState) (ip : Ip)
    (hdisc : env.get_public_ip = .ok ip) :
    (handler env now db).err = none ∧
    lastCheckCount (handler env now db).trace = 1 ∧
    (handler env now db).db.last_check = some now ∧
    (db.current_ip = some ip →
      setIpCalls (handler env now db).trace = [] ∧
      (handler env now db).db.current_ip = db.current_ip) ∧
    (db.current_ip ≠ some ip →
      setIpCalls (handler env now db).trace = [ip] ∧
      (handler env now db).db.current_ip = some ip) := by
  by_cases hip : db.current_ip = some ip
  · have hcond : some ip = get_ip (update_last_check db now) := by
      simp only [get_ip, update_last_check]
      exact hip.symm
    by_cases hp : (get_pending_hosts (update_last_check db now)).isEmpty
    · have hh : handler env now db =
          { db := update_last_check db now,
            trace := [Event.discover ip, Event.lastCheck], err := none } := by
        simp only [handler, hdisc]
        rw [if_pos hcond, if_pos hp]
      rw [hh]
      exact ⟨rfl, rfl, rfl, fun _ => ⟨rfl, rfl⟩, fun h => absurd hip h⟩
    · have hh : handler env now db =
          { db := (update_hosts_ip env now (update_last_check db now)
                    (get_pending_hosts (update_last_check db now)) ip).1,
            trace := [Event.discover ip, Event.lastCheck] ++
              (update_hosts_ip env now (update_last_check db now)
                (get_pending_hosts (update_last_check db now)) ip).2,
            err := none } := by
        simp only [handler, hdisc]
        rw [if_pos hcond, if_neg hp]
      rw [hh]
      refine ⟨rfl, ?_, ?_, fun _ => ⟨?_, ?_⟩, fun h => absurd hip h⟩
      · show lastCheckCount (Event.discover ip :: Event.lastCheck ::
          (update_hosts_ip env now (update_last_check db now)
            (get_pending_hosts (update_last_check db now)) ip).2) = 1
        have hz := lastCheckCount_update_hosts_ip env now ip
          (get_pending_hosts (update_last_check db now)) (update_last_check db now)
        simp only [lastCheckCount] at hz ⊢
        simp [List.filter_cons, hz]
      · simp only
        rw [update_hosts_ip_last_check]
        rfl
      · show setIpCalls (Event.discover ip :: Event.lastCheck ::
          (update_hosts_ip env now (update_last_check db now)
            (get_pending_hosts (update_last_check db now)) ip).2) = []
        simp only [setIpCalls, List.filterMap_cons]
        rw [← setIpCalls, setIpCalls_update_hosts_ip]
      · simp only
        rw [update_hosts_ip_current_ip]
        exact hip.symm ▸ rfl
  · have hcond : ¬ (some ip = get_ip (update_last_check db now)) := by
      simp only [get_ip, update_last_check]
      exact fun h => hip h.symm
    have hh : handler env now db =
        { db := (update_hosts_ip env now (set_ip (update_last_check db now) now ip)
                  (get_hosts (set_ip (update_last_check db now) now ip)) ip).1,
          trace := [Event.discover ip, Event.lastCheck, Event.setIpCall ip] ++
            (update_hosts_ip env now (set_ip (update_last_check db now) now ip)
              (get_hosts (set_ip (update_last_check db now) now ip)) ip).2,
          err := none } := by
      simp only [handler, hdisc]
      rw [if_neg hcond]
    rw [hh]
    refine ⟨rfl, ?_, ?_, fun h => absurd h hip, fun _ => ⟨?_, ?_⟩⟩
    · show lastCheckCount (Event.discover ip :: Event.lastCheck :: Event.setIpCall ip ::
        (update_hosts_ip env now (set_ip (update_last_check db now) now ip)
          (get_hosts (set_ip (update_last_check db now) now ip)) ip).2) = 1
      have hz := lastCheckCount_update_hosts_ip env now ip
        (get_hosts (set_ip (update_last_check db now) now ip))
        (set_ip (update_last_check db now) now ip)
      simp only [lastCheckCount] at hz ⊢
      simp [List.filter_cons, hz]
    · simp only
      rw [update_hosts_ip_last_check, set_ip_last_check]
    · show setIpCalls (Event.discover ip :: Event.lastCheck :: Event.setIpCall ip ::
        (update_hosts_ip env now (set_ip (update_last_check db now) now ip)
          (get_hosts (set_ip (update_last_check db now) now ip)) ip).2) = [ip]
      simp only [setIpCalls, List.filterMap_cons]
      rw [← setIpCalls, setIpCalls_update_hosts_ip]
    · simp only
      rw [update_hosts_ip_current_ip, set_ip_current_ip]

end DynDns

namespace DynDns

/-- Helper: a key absent from the key column makes `List.lookup` miss. -/
theorem lookup_eq_none_of_not_mem_keys {β : Type} (x : String)
    (l : List (String × β)) (h : x ∉ l.map Prod.fst) : l.lookup x = none := by
  induction l with
  | nil => rfl
  | cons p rest ih =>
      obtain ⟨k, b⟩ := p
      simp only [List.map_cons, List.mem_cons] at h
      push_neg at h
      obtain ⟨h1, h2⟩ := h
      simp [List.lookup, beq_eq_false_iff_ne.mpr h1, ih h2]

/-- Helper: a `List.lookup` hit is one of the stored values. -/
theorem mem_map_snd_of_lookup {β : Type} (x : String) (v : β)
    (l : List (String × β)) (h : l.lookup x = some v) : v ∈ l.map Prod.snd := by
  induction l with
  | nil => simp [List.lookup] at h
  | cons p rest ih =>
      obtain ⟨k, b⟩ := p
      simp only [List.lookup] at h
      by_cases hx : (x == k) = true
      · rw [hx] at h
        injection h with hbv
        subst hbv
        simp
      · rw [Bool.not_eq_true] at hx
        rw [hx] at h
        simp [ih h]

/-- C4: during reconciliation of any selected host list, each host is
attempted and its outcome persisted immediately via `update_host_status`
(success as returned, a raised updater exception as `(false, str(e))`, the
status write directly following each DNS call in the trace), and every
host in the list is attempted whatever the earlier outcomes; the statement
holds for every environment, including ones whose updater raises, so no
updater exception escapes `update_hosts_ip`. -/
theorem update_hosts_ip_isolation (env : Ports) (now : Nat) (db : DbState)
    (hosts : List HostConfig) (ip : Ip) :
    (update_hosts_ip env now db hosts ip).2 =
      hosts.flatMap (fun h =>
        [Event.dnsUpdate h.hostname ip,
         Event.statusWrite h.hostname (updateOutcome env h ip).1
           (updateOutcome env h ip).2]) ∧
    (update_hosts_ip env now db hosts ip).1 =
      hosts.foldl (fun d h =>
        update_host_status d now h.hostname (updateOutcome env h ip).1
          (updateOutcome env h ip).2) db ∧
    dnsCalls (update_hosts_ip env now db hosts ip).2 =
      hosts.map (fun h => (h.hostname, ip)) ∧
    statusWrites (update_hosts_ip env now db hosts ip).2 =
      hosts.map (fun h => (h.hostname, updateOutcome env h ip)) :=
  ⟨update_hosts_ip_trace env now ip hosts db,
   update_hosts_ip_db env now ip hosts db,
   dnsCalls_update_hosts_ip env now ip hosts db,
   statusWrites_update_hosts_ip env now ip hosts db⟩

/-- C6: `get_pending_hosts` returns exactly the configured hosts whose last
recorded status is failure or never-run, and no host whose last update
succeeded (spec-modelled: the concrete repository implementation is not
under src/). -/
theorem get_pending_hosts_characterization (db : DbState) (hc : HostConfig) :
    hc ∈ get_pending_hosts db ↔
      ∃ r ∈ db.hosts, r.config = hc ∧
        (r.last_status = none ∨ r.last_status = some false) := by
  simp only [get_pending_hosts]
  induction db.hosts with
  | nil => simp [pendingOf]
  | cons h rest ih =>
      rcases hls : h.last_status with _ | b
      · simp only [pendingOf, hls, List.mem_cons, ih]
        constructor
        · rintro (rfl | ⟨r, hr, hcf, hst⟩)
          · exact ⟨h, Or.inl rfl, rfl, Or.inl hls⟩
          · exact ⟨r, Or.inr hr, hcf, hst⟩
        · rintro ⟨r, (rfl | hr), hcf, hst⟩
          · exact Or.inl hcf.symm
          · exact Or.inr ⟨r, hr, hcf, hst⟩
      · cases b
        · simp only [pendingOf, hls, List.mem_cons, ih]
          constructor
          · rintro (rfl | ⟨r, hr, hcf, hst⟩)
            · exact ⟨h, Or.inl rfl, rfl, Or.inr hls⟩
            · exact ⟨r, Or.inr hr, hcf, hst⟩
          · rintro ⟨r, (rfl | hr), hcf, hst⟩
            · exact Or.inl hcf.symm
            · exact Or.inr ⟨r, hr, hcf, hst⟩
        · simp only [pendingOf, hls, ih]
          constructor
          · rintro ⟨r, hr, hcf, hst⟩
            exact ⟨r, List.mem_cons_of_mem h hr, hcf, hst⟩
          · rintro ⟨r, hr, hcf, hst⟩
            rcases List.mem_cons.mp hr with rfl | hr2
            · rcases hst with h0 | h0 <;> rw [hls] at h0 <;> cases h0
            · exact ⟨r, hr2, hcf, hst⟩

end DynDns

namespace DynDns

/-- C3 counterexample: the body `goodness` has first word `goodness`, which
is neither `good` nor `nochg` nor any known response code, so the claim
requires `(false, "Unknown error: goodness")`; the parser instead matches
the prefix `good` and classifies it `(true, none)`. -/
theorem parse_response_first_word_counterexample :
    OvhClient.parse_response "goodness" = (true, none) ∧
    OvhClient.error_code_of (OvhClient.pyLower (OvhClient.pyStrip "goodness")) =
      "goodness" ∧
    "goodness" ∉ OvhClient.RESPONSE_MESSAGES.map Prod.fst ∧
    ("goodness" : String) ≠ "good" ∧ ("goodness" : String) ≠ "nochg" := by
  refine ⟨by decide, by decide, by decide, by decide, by decide⟩

/-- C3 amended: success is decided by prefix match of the trimmed
lower-cased body against `good`/`nochg` (so unmatched codes beginning with
those prefixes are also classified successes), with no error message;
every non-success body yields `false` together with either the fixed
message of the response code matching its first whitespace-delimited word
or, when the first word matches no known code, a message beginning
`Unknown error: ` followed by the trimmed lower-cased text. -/
theorem parse_response_classification (s : String) :
    (((OvhClient.parse_response s).1 = true) ↔
      (OvhClient.pyStartsWith (OvhClient.pyLower (OvhClient.pyStrip s)) "good" = true ∨
       OvhClient.pyStartsWith (OvhClient.pyLower (OvhClient.pyStrip s)) "nochg" = true)) ∧
    ((OvhClient.parse_response s).1 = true →
      (OvhClient.parse_response s).2 = none) ∧
    ((OvhClient.parse_response s).1 = false →
      ∃ msg, (OvhClient.parse_response s).2 = some msg ∧
        (msg ∈ OvhClient.RESPONSE_MESSAGES.map Prod.snd ∨
         msg = "Unknown error: " ++ OvhClient.pyLower (OvhClient.pyStrip s))) ∧
    (∀ code msg, (code, msg) ∈ OvhClient.RESPONSE_MESSAGES →
      ¬ (OvhClient.pyStartsWith (OvhClient.pyLower (OvhClient.pyStrip s)) "good" = true ∨
         OvhClient.pyStartsWith (OvhClient.pyLower (OvhClient.pyStrip s)) "nochg" = true) →
      OvhClient.error_code_of (OvhClient.pyLower (OvhClient.pyStrip s)) = code →
      OvhClient.parse_response s = (false, some msg)) ∧
    (¬ (OvhClient.pyStartsWith (OvhClient.pyLower (OvhClient.pyStrip s)) "good" = true ∨
        OvhClient.pyStartsWith (OvhClient.pyLower (OvhClient.pyStrip s)) "nochg" = true) →
      OvhClient.error_code_of (OvhClient.pyLower (OvhClient.pyStrip s)) ∉
        OvhClient.RESPONSE_MESSAGES.map Prod.fst →
      OvhClient.parse_response s =
        (false, some ("Unknown error: " ++ OvhClient.pyLower (OvhClient.pyStrip s)))) := by
  by_cases hc : (OvhClient.pyStartsWith (OvhClient.pyLower (OvhClient.pyStrip s)) "good" ||
      OvhClient.pyStartsWith (OvhClient.pyLower (OvhClient.pyStrip s)) "nochg") = true
  · have hps : OvhClient.parse_response s = (true, none) := by
      simp only [OvhClient.parse_response]
      rw [if_pos hc]
    have hdis := Bool.or_eq_true _ _ |>.mp hc
    refine ⟨?_, ?_, ?_, ?_, ?_⟩
    · rw [hps]
      simp [hdis]
    · intro _
      rw [hps]
    · intro hfalse
      rw [hps] at hfalse
      exact absurd hfalse (by decide)
    · intro code msg _ hns _
      exact absurd hdis hns
    · intro hns _
      exact absurd hdis hns
  · have hps : OvhClient.parse_response s =
        (false, some ((OvhClient.RESPONSE_MESSAGES.lookup
          (OvhClient.error_code_of (OvhClient.pyLower (OvhClient.pyStrip s)))).getD
          ("Unknown error: " ++ OvhClient.pyLower (OvhClient.pyStrip s)))) := by
      simp only [OvhClient.parse_response]
      rw [if_neg hc]
    have hndis : ¬ (OvhClient.pyStartsWith (OvhClient.pyLower (OvhClient.pyStrip s))
        "good" = true ∨
        OvhClient.pyStartsWith (OvhClient.pyLower (OvhClient.pyStrip s)) "nochg" = true) := by
      intro h
      exact hc (Bool.or_eq_true _ _ |>.mpr h)
    refine ⟨?_, ?_, ?_, ?_, ?_⟩
    · rw [hps]
      constructor
      · intro h
        exact Bool.noConfusion h
      · intro h
        exact absurd h hndis
    · intro h
      rw [hps] at h
      exact Bool.noConfusion h
    · intro _
      refine ⟨(OvhClient.RESPONSE_MESSAGES.lookup
          (OvhClient.error_code_of (OvhClient.pyLower (OvhClient.pyStrip s)))).getD
          ("Unknown error: " ++ OvhClient.pyLower (OvhClient.pyStrip s)), ?_, ?_⟩
      · rw [hps]
      · cases hl : OvhClient.RESPONSE_MESSAGES.lookup
            (OvhClient.error_code_of (OvhClient.pyLower (OvhClient.pyStrip s))) with
        | some v =>
            left
            exact mem_map_snd_of_lookup _ _ _ hl
        | none =>
            right
            rfl
    · intro code msg hmem _ hcode
      rw [hps, hcode]
      fin_cases hmem <;> rfl
    · intro _ hnotmem
      rw [hps, lookup_eq_none_of_not_mem_keys _ _ hnotmem]
      rfl

/-- C7 counterexample: a 304 response (non-2xx) with body `good` is
classified `(true, none)` by `update_ip` because `requests.Response.ok`
only fails from 400 upward, contradicting the claimed
`(false, "HTTP 304: Not Modified")`. -/
theorem update_ip_non2xx_counterexample :
    OvhClient.update_ip (.resp
      { status_code := 304, reason := "Not Modified", text := "good" }) =
      (true, none) ∧
    ¬ (200 ≤ 304 ∧ 304 ≤ 299) ∧
    OvhClient.update_ip (.resp
      { status_code := 304, reason := "Not Modified", text := "good" }) ≠
      (false, some ("HTTP " ++ toString (304 : Nat) ++ ": " ++ "Not Modified")) := by
  refine ⟨by decide, by decide, by decide⟩

/-- C7 amended: `update_ip` never lets a transport exception escape - a
raised request exception becomes `(false, "Connection error: " ++ msg)`;
a response with HTTP status at least 400 yields
`(false, "HTTP <status>: <reason>")` without the body being parsed; any
response below 400 (including non-2xx redirect-class statuses) has its
body parsed. -/
theorem update_ip_transport_classification (msg : String)
    (r : OvhClient.HttpResponse) :
    OvhClient.update_ip (.exc msg) =
      (false, some ("Connection error: " ++ msg)) ∧
    (400 ≤ r.status_code →
      OvhClient.update_ip (.resp r) =
        (false, some ("HTTP " ++ toString r.status_code ++ ": " ++ r.reason))) ∧
    (r.status_code < 400 →
      OvhClient.update_ip (.resp r) = OvhClient.parse_response r.text) := by
  refine ⟨rfl, ?_, ?_⟩
  · intro h
    have hok : r.ok = false := by
      simp [OvhClient.HttpResponse.ok, Nat.not_lt.mpr h]
    simp [OvhClient.update_ip, hok]
  · intro h
    have hok : r.ok = true := by
      simp [OvhClient.HttpResponse.ok, h]
    simp [OvhClient.update_ip, hok]

end DynDns

namespace DynDns

/-- Helper: behavior of the post-lookup part of the forced update, for any
starting state and event prefix. -/
theorem force_attempt_spec (env : Ports) (now : Nat) (db : DbState)
    (host : HostConfig) (hostname : String) (ip : Ip) (evs0 : List Event) :
    (force_attempt env now db host hostname ip evs0).1.current_ip =
      db.current_ip ∧
    (force_attempt env now db host hostname ip evs0).1.last_check = some now ∧
    (force_attempt env now db host hostname ip evs0).2.1 =
      evs0 ++ [Event.lastCheck, Event.dnsUpdate host.hostname ip,
        Event.statusWrite hostname (updateOutcome env host ip).1
          (updateOutcome env host ip).2] ∧
    ((updateOutcome env host ip).1 = true →
      (force_attempt env now db host hostname ip evs0).2.2 =
        (true, "Host " ++ hostname ++ " updated successfully")) ∧
    ((updateOutcome env host ip).1 = false →
      (force_attempt env now db host hostname ip evs0).2.2.1 = false) := by
  simp only [force_attempt]
  cases hu : env.update_ip host ip with
  | error e =>
      simp [updateOutcome, hu, update_host_status_current_ip,
        update_host_status_last_check, update_last_check]
  | ok r =>
      obtain ⟨s, e⟩ := r
      cases s <;>
        simp [updateOutcome, hu, update_host_status_current_ip,
          update_host_status_last_check, update_last_check]

/-- C9: `force_update_host` on a missing hostname returns a failure result
with no side effect; on an existing host with a stored IP it records the
last check, performs exactly one update attempt with that IP, persists the
outcome via `update_host_status`, and returns success or failure
accordingly; when the stored IP is unset it first discovers and persists a
fresh IP and then proceeds the same way. -/
theorem force_update_host_behavior (env : Ports) (now : Nat) (db : DbState)
    (hostname : String) :
    (get_host_by_hostname db hostname = none →
      force_update_host env now db hostname =
        (db, [], false, "Host " ++ hostname ++ " not found")) ∧
    (∀ host ip, get_host_by_hostname db hostname = some host →
      get_ip db = some ip →
      (force_update_host env now db hostname).1.current_ip = some ip ∧
      (force_update_host env now db hostname).1.last_check = some now ∧
      dnsCalls (force_update_host env now db hostname).2.1 =
        [(host.hostname, ip)] ∧
      statusWrites (force_update_host env now db hostname).2.1 =
        [(hostname, updateOutcome env host ip)] ∧
      lastCheckCount (force_update_host env now db hostname).2.1 = 1 ∧
      setIpCalls (force_update_host env now db hostname).2.1 = [] ∧
      ((updateOutcome env host ip).1 = true →
        (force_update_host env now db hostname).2.2 =
          (true, "Host " ++ hostname ++ " updated successfully")) ∧
      ((updateOutcome env host ip).1 = false →
        (force_update_host env now db hostname).2.2.1 = false)) ∧
    (∀ host ip, get_host_by_hostname db hostname = some host →
      get_ip db = none → env.get_public_ip = .ok ip →
      (force_update_host env now db hostname).1.current_ip = some ip ∧
      (force_update_host env now db hostname).1.last_check = some now ∧
      setIpCalls (force_update_host env now db hostname).2.1 = [ip] ∧
      dnsCalls (force_update_host env now db hostname).2.1 =
        [(host.hostname, ip)] ∧
      statusWrites (force_update_host env now db hostname).2.1 =
        [(hostname, updateOutcome env host ip)] ∧
      lastCheckCount (force_update_host env now db hostname).2.1 = 1 ∧
      ((updateOutcome env host ip).1 = true →
        (force_update_host env now db hostname).2.2 =
          (true, "Host " ++ hostname ++ " updated successfully")) ∧
      ((updateOutcome env host ip).1 = false →
        (force_update_host env now db hostname).2.2.1 = false)) := by
  refine ⟨?_, ?_, ?_⟩
  · intro h
    simp only [force_update_host, h]
  · intro host ip hfind hip
    have hf : force_update_host env now db hostname =
        force_attempt env now db host hostname ip [] := by
      simp only [force_update_host, hfind, hip]
    obtain ⟨h1, h2, h3, h4, h5⟩ := force_attempt_spec env now db host hostname ip []
    rw [hf]
    refine ⟨by rw [h1, ← hip]; rfl, h2, ?_, ?_, ?_, ?_, h4, h5⟩
    · rw [h3]
      simp [dnsCalls]
    · rw [h3]
      simp [statusWrites]
    · rw [h3]
      simp [lastCheckCount]
    · rw [h3]
      simp [setIpCalls]
  · intro host ip hfind hip hdisc
    have hf : force_update_host env now db hostname =
        force_attempt env now (set_ip db now ip) host hostname ip
          [Event.discover ip, Event.setIpCall ip] := by
      simp only [force_update_host, hfind, hip, hdisc]
    obtain ⟨h1, h2, h3, h4, h5⟩ := force_attempt_spec env now (set_ip db now ip)
      host hostname ip [Event.discover ip, Event.setIpCall ip]
    rw [hf]
    refine ⟨by rw [h1, set_ip_current_ip], h2, ?_, ?_, ?_, ?_, h4, h5⟩
    · rw [h3]
      simp [setIpCalls]
    · rw [h3]
      simp [dnsCalls]
    · rw [h3]
      simp [statusWrites]
    · rw [h3]
      simp [lastCheckCount]

end DynDns

namespace DynDns

/-- C10: for an existing host, `force_update_host` converts any raised
exception - from IP discovery with no stored IP, or from the update
attempt - into a persisted `update_host_status(hostname, false, str(e))`
and a returned `(false, str(e))`, instead of raising. -/
theorem force_update_host_never_raises (env : Ports) (now : Nat) (db : DbState)
    (hostname : String) (host : HostConfig)
    (hfind : get_host_by_hostname db hostname = some host) :
    (∀ e, get_ip db = none → env.get_public_ip = .error e →
      force_update_host env now db hostname =
        (update_host_status db now hostname false (some e),
         [Event.statusWrite hostname false (some e)], false, e)) ∧
    (∀ ip e, get_ip db = some ip → env.update_ip host ip = .error e →
      (force_update_host env now db hostname).2.2 = (false, e) ∧
      statusWrites (force_update_host env now db hostname).2.1 =
        [(hostname, false, some e)]) ∧
    (∀ ip e, get_ip db = none → env.get_public_ip = .ok ip →
      env.update_ip host ip = .error e →
      (force_update_host env now db hostname).2.2 = (false, e) ∧
      statusWrites (force_update_host env now db hostname).2.1 =
        [(hostname, false, some e)]) := by
  refine ⟨?_, ?_, ?_⟩
  · intro e hip hdisc
    simp only [force_update_host, hfind, hip, hdisc]
  · intro ip e hip hu
    have hf : force_update_host env now db hostname =
        force_attempt env now db host hostname ip [] := by
      simp only [force_update_host, hfind, hip]
    rw [hf]
    simp only [force_attempt, hu]
    refine ⟨trivial, ?_⟩
    simp [statusWrites]
  · intro ip e hip hdisc hu
    have hf : force_update_host env now db hostname =
        force_attempt env now (set_ip db now ip) host hostname ip
          [Event.discover ip, Event.setIpCall ip] := by
      simp only [force_update_host, hfind, hip, hdisc]
    rw [hf]
    simp only [force_attempt, hu]
    refine ⟨trivial, ?_⟩
    simp [statusWrites]

end DynDns

namespace DynDns

/-- Witness for C1: concrete changed-IP cycle with two configured hosts. -/
theorem handler_ip_changed_full_reconciliation_witness :
    ∃ tail,
      (handler envOk 5 dbS).trace =
        Event.discover "2.2.2.2" :: Event.lastCheck ::
          Event.setIpCall "2.2.2.2" :: tail ∧
      dnsCalls tail = (get_hosts dbS).map (fun h => (h.hostname, "2.2.2.2")) ∧
      setIpCalls tail = [] ∧
      (handler envOk 5 dbS).db.current_ip = some "2.2.2.2" ∧
      (handler envOk 5 dbS).err = none :=
  handler_ip_changed_full_reconciliation envOk 5 dbS "2.2.2.2" rfl (by decide)

/-- Witness for C2: concrete unchanged-IP cycle retrying only the pending host. -/
theorem handler_ip_unchanged_pending_only_witness :
    dnsCalls (handler envSame 5 dbS).trace =
      (get_pending_hosts dbS).map (fun h => (h.hostname, "1.1.1.1")) ∧
    setIpCalls (handler envSame 5 dbS).trace = [] ∧
    (handler envSame 5 dbS).db.current_ip = dbS.current_ip ∧
    (handler envSame 5 dbS).err = none :=
  handler_ip_unchanged_pending_only envSame 5 dbS "1.1.1.1" rfl (by decide)

/-- Witness for C5: concrete failing discovery aborts with no mutation. -/
theorem handler_discovery_failure_aborts_witness :
    handler envFail 7 dbS =
      { db := dbS, trace := [], err := some "DynDNS update failed" } :=
  handler_discovery_failure_aborts envFail 7 dbS "Unable to fetch IP from ipify" rfl

/-- Witness for C8: concrete successful-discovery cycle. -/
theorem handler_state_invariants_witness :
    (handler envOk 5 dbS).err = none ∧
    lastCheckCount (handler envOk 5 dbS).trace = 1 ∧
    (handler envOk 5 dbS).db.last_check = some 5 ∧
    (dbS.current_ip = some "2.2.2.2" →
      setIpCalls (handler envOk 5 dbS).trace = [] ∧
      (handler envOk 5 dbS).db.current_ip = dbS.current_ip) ∧
    (dbS.current_ip ≠ some "2.2.2.2" →
      setIpCalls (handler envOk 5 dbS).trace = ["2.2.2.2"] ∧
      (handler envOk 5 dbS).db.current_ip = some "2.2.2.2") :=
  handler_state_invariants envOk 5 dbS "2.2.2.2" rfl

/-- Witness for C6: concrete pending-set membership instance. -/
theorem get_pending_hosts_characterization_witness :
    hostB ∈ get_pending_hosts dbS ↔
      ∃ r ∈ dbS.hosts, r.config = hostB ∧
        (r.last_status = none ∨ r.last_status = some false) :=
  get_pending_hosts_characterization dbS hostB

/-- Witness for C3 amended: the fixed message of a concrete known code. -/
theorem parse_response_classification_witness :
    OvhClient.parse_response "badauth" =
      (false, some "Authentication failed - check username/password") :=
  (parse_response_classification "badauth").2.2.2.1 "badauth"
    "Authentication failed - check username/password"
    (by decide) (by decide) (by decide)

/-- Witness for C7 amended: a concrete 401 response maps to an HTTP error. -/
theorem update_ip_transport_classification_witness :
    OvhClient.update_ip (.resp
      { status_code := 401, reason := "Unauthorized", text := "badauth" }) =
      (false, some ("HTTP " ++ toString (401 : Nat) ++ ": " ++ "Unauthorized")) :=
  (update_ip_transport_classification "x"
    { status_code := 401, reason := "Unauthorized", text := "badauth" }).2.1
    (by decide)

/-- Witness for C9: concrete forced update of an existing host with stored IP. -/
theorem force_update_host_behavior_witness :
    (force_update_host envOk 5 dbS "b.example.com").1.current_ip =
      some "1.1.1.1" ∧
    (force_update_host envOk 5 dbS "b.example.com").1.last_check = some 5 ∧
    dnsCalls (force_update_host envOk 5 dbS "b.example.com").2.1 =
      [(hostB.hostname, "1.1.1.1")] ∧
    statusWrites (force_update_host envOk 5 dbS "b.example.com").2.1 =
      [("b.example.com", updateOutcome envOk hostB "1.1.1.1")] ∧
    lastCheckCount (force_update_host envOk 5 dbS "b.example.com").2.1 = 1 ∧
    setIpCalls (force_update_host envOk 5 dbS "b.example.com").2.1 = [] ∧
    ((updateOutcome envOk hostB "1.1.1.1").1 = true →
      (force_update_host envOk 5 dbS "b.example.com").2.2 =
        (true, "Host " ++ "b.example.com" ++ " updated successfully")) ∧
    ((updateOutcome envOk hostB "1.1.1.1").1 = false →
      (force_update_host envOk 5 dbS "b.example.com").2.2.1 = false) :=
  (force_update_host_behavior envOk 5 dbS "b.example.com").2.1 hostB "1.1.1.1"
    (by decide) (by decide)

/-- Witness for C10: concrete raising updater is absorbed and persisted. -/
theorem force_update_host_never_raises_witness :
    (force_update_host envRaise 5 dbS "b.example.com").2.2 = (false, "boom") ∧
    statusWrites (force_update_host envRaise 5 dbS "b.example.com").2.1 =
      [("b.example.com", false, some "boom")] :=
  (force_update_host_never_raises envRaise 5 dbS "b.example.com" hostB
    (by decide)).2.1 "1.1.1.1" "boom" (by decide) rfl

end DynDns
